import Mathlib

/-!
Verification development for `src/ui/ui_z80pio.h` (Z80 PIO debug-UI window).

The C header is shallowly embedded: structs become Lean structures, pointer
arguments become explicit values threaded through and returned, `CHIPS_ASSERT`
failures become `none` results, and ImGui rendering calls become an explicit
list of `RenderOp` values produced by a draw.  The window's `z80pio_t*` pointer
target is passed to `ui_z80pio_draw` explicitly as a value and returned, so
that mutation (or its absence) of the chip state is visible in the result.
C `uint8_t` registers are `Nat` (callers keep them below 256).  The C `int`
geometry values are stored through `(float)` casts; the cast is modelled by
`f32OfInt`, round-to-nearest-even to a 24-bit significand over `Int`, so a
value of magnitude above 2^24 (such as 16777217) is stored rounded, exactly
as the program stores it.

External repository headers that are not under `src/` (`ui_chip.h`,
`ui_settings.h`, `ui_util.h`, `z80pio.h` constants) are modelled from the
spec; each such definition's doc comment says so.
-/

/-- One port of the PIO, as read by the UI (`z80pio_t.port[i]` fields that
`_ui_z80pio_ports` dereferences): 8-bit registers modelled as `Nat`. -/
structure z80pio_port_t where
  mode : Nat
  output : Nat
  input : Nat
  io_select : Nat
  int_control : Nat
  int_vector : Nat
  int_mask : Nat

/-- The chip-emulation state the UI reads: two ports and the 64-bit pin mask. -/
structure z80pio_t where
  port : Fin 2 → z80pio_port_t
  pins : Nat

/-- Modelled from the spec: `Z80PIO_INTCTRL_EI` from `z80pio.h` (not under
`src/`), the enable-interrupt bit of the 8-bit interrupt-control register,
a single bit distinct from the and/or and hi/lo bits; taken as bit 7. -/
def Z80PIO_INTCTRL_EI : Nat := 128

/-- Modelled from the spec: `Z80PIO_INTCTRL_ANDOR` from `z80pio.h` (not under
`src/`), the and/or-mode bit of the interrupt-control register; bit 6. -/
def Z80PIO_INTCTRL_ANDOR : Nat := 64

/-- Modelled from the spec: `Z80PIO_INTCTRL_HILO` from `z80pio.h` (not under
`src/`), the hi/lo bit of the interrupt-control register; bit 5. -/
def Z80PIO_INTCTRL_HILO : Nat := 32

/-- Modelled from the spec: `ui_chip_desc_t` from `ui_chip.h` (not under
`src/`), the caller-supplied pin-widget configuration, abstract data. -/
structure ui_chip_desc_t where
  cfg : Nat

/-- Modelled from the spec: `ui_chip_t` from `ui_chip.h` (not under `src/`),
the embedded pin-diagram widget instance, abstract data. -/
structure ui_chip_t where
  st : Nat

/-- Modelled from the spec: `ui_chip_init` from `ui_chip.h` (not under
`src/`): initializes the embedded widget from the supplied description. -/
def ui_chip_init (desc : ui_chip_desc_t) : ui_chip_t :=
  { st := desc.cfg }

/-- Render calls issued by the window, one constructor per ImGui call made by
`ui_z80pio_draw` and `_ui_z80pio_ports`. -/
inductive RenderOp where
  | setNextWindowPos (x y : Int)
  | setNextWindowSize (w h : Int)
  | begin (title : String)
  | «end»
  | beginChild (id : String)
  | endChild
  | sameLine
  | chipDraw (pins : Nat)
  | beginTable (id : String) (cols : Nat)
  | tableSetupColumn (label : String)
  | tableHeadersRow
  | tableNextColumn
  | text (s : String)
  | endTable

/-- Modelled from the spec: `ui_chip_draw` from `ui_chip.h` (not under
`src/`): renders the pin diagram from the widget state and the pin-state
bitmask it is given read access to (`pins` is passed by value in C, so the
chip emulation cannot be written through it). -/
def ui_chip_draw (chip : ui_chip_t) (pins : Nat) : ui_chip_t × List RenderOp :=
  (chip, [RenderOp.chipDraw pins])

/-- Modelled from the spec: `ui_settings_t` from `ui_settings.h` (not under
`src/`), an external key/value store keyed by window title (a C string, so a
possibly-NULL `Option String` key) holding the open/closed flag. -/
def ui_settings_t : Type := List (Option String × Bool)

/-- Modelled from the spec: `ui_settings_add` from `ui_settings.h` (not under
`src/`): records the open flag under the window-title key. -/
def ui_settings_add (settings : ui_settings_t) (title : Option String)
    (isOpen : Bool) : ui_settings_t :=
  (title, isOpen) :: settings

/-- Modelled from the spec: `ui_settings_isopen` from `ui_settings.h` (not
under `src/`): looks up the open flag stored under the title key, false when
absent. -/
def ui_settings_isopen (settings : ui_settings_t) (title : Option String) : Bool :=
  (List.lookup title settings).getD false

/-- Modelled from the spec: `ui_util_handle_window_open_dirty` from
`ui_util.h` (not under `src/`): reconciles the open flag with its
previous-frame value, synchronizing the two flags; no rendering side effect. -/
def ui_util_handle_window_open_dirty (isOpen lastOpen : Bool) : Bool × Bool :=
  (isOpen, isOpen)

/-- `ui_z80pio_desc_t`: setup parameters for `ui_z80pio_init`.  The two C
pointers (`title`, `pio`) are `Option`s, `none` standing for NULL; `pio` is
an address, the pointed-to `z80pio_t` is passed to draw explicitly. -/
structure ui_z80pio_desc_t where
  title : Option String
  pio : Option Nat
  x : Int
  y : Int
  w : Int
  h : Int
  «open» : Bool
  chip_desc : ui_chip_desc_t

/-- `ui_z80pio_t`: the window state.  `init_x .. init_h` are C floats; every
value ever stored in them is `f32OfInt` of a C int, an integer, so they are
modelled by the integer value the float holds. -/
structure ui_z80pio_t where
  title : Option String
  pio : Option Nat
  init_x : Int
  init_y : Int
  init_w : Int
  init_h : Int
  «open» : Bool
  last_open : Bool
  valid : Bool
  chip : ui_chip_t

/-- Unit in the last place of an IEEE-754 single-precision float at
magnitude `m`: floats in a binade `[2^(23+k), 2^(24+k))` are the multiples
of `2^k`.  Written out binade by binade up to the C `int` range
(magnitudes up to `2^31`). -/
def f32ulp (m : Nat) : Nat :=
  if m < 16777216 then 1
  else if m < 33554432 then 2
  else if m < 67108864 then 4
  else if m < 134217728 then 8
  else if m < 268435456 then 16
  else if m < 536870912 then 32
  else if m < 1073741824 then 64
  else 128

/-- Round `m` to the nearest multiple of `u`, ties to the even multiple —
the IEEE-754 default rounding used by the C `int` to `float` conversion. -/
def roundNearestEven (m u : Nat) : Nat :=
  if 2 * (m % u) < u then m / u * u
  else if u < 2 * (m % u) then (m / u + 1) * u
  else if m / u % 2 = 0 then m / u * u else (m / u + 1) * u

/-- The value a C `(float)` cast stores for an `int` `v`: `v` rounded to the
nearest single-precision float, ties to even; exact for magnitudes up to
`2^24`. -/
def f32OfInt (v : Int) : Int :=
  if v < 0 then -((roundNearestEven v.natAbs (f32ulp v.natAbs) : Nat) : Int)
  else ((roundNearestEven v.natAbs (f32ulp v.natAbs) : Nat) : Int)

/-- `ui_z80pio_init` (lines 104-118): asserts non-NULL `title` and `pio`
(`none` = assertion failure), zeroes the struct and stores every field, with
360/364 substituted for a zero requested width/height and each geometry
component stored through the C `(float)` cast. -/
def ui_z80pio_init (desc : ui_z80pio_desc_t) : Option ui_z80pio_t :=
  if desc.title.isSome ∧ desc.pio.isSome then
    some { title := desc.title
           pio := desc.pio
           init_x := f32OfInt desc.x
           init_y := f32OfInt desc.y
           init_w := f32OfInt (if desc.w = 0 then 360 else desc.w)
           init_h := f32OfInt (if desc.h = 0 then 364 else desc.h)
           «open» := desc.«open»
           last_open := desc.«open»
           valid := true
           chip := ui_chip_init desc.chip_desc }
  else none

/-- `ui_z80pio_discard` (lines 120-123): asserts `win->valid`, clears it. -/
def ui_z80pio_discard (win : ui_z80pio_t) : Option ui_z80pio_t :=
  if win.valid then some { win with valid := false } else none

/-- `_ui_z80pio_mode_str` (lines 125-133): the switch on the 8-bit mode. -/
def _ui_z80pio_mode_str (mode : Nat) : String :=
  match mode with
  | 0 => "OUT"
  | 1 => "INP"
  | 2 => "BDIR"
  | 3 => "BITC"
  | _ => "INVALID"

/-- The inline conditional of line 165:
`pio->port[i].int_control & Z80PIO_INTCTRL_EI ? "EI" : "DI"`. -/
def _ui_z80pio_eidi_str (int_control : Nat) : String :=
  if int_control &&& Z80PIO_INTCTRL_EI ≠ 0 then "EI" else "DI"

/-- The inline conditional of line 169:
`pio->port[i].int_control & Z80PIO_INTCTRL_ANDOR ? "AND" : "OR"`. -/
def _ui_z80pio_andor_str (int_control : Nat) : String :=
  if int_control &&& Z80PIO_INTCTRL_ANDOR ≠ 0 then "AND" else "OR"

/-- The inline conditional of line 173:
`pio->port[i].int_control & Z80PIO_INTCTRL_HILO ? "HI" : "LO"`. -/
def _ui_z80pio_hilo_str (int_control : Nat) : String :=
  if int_control &&& Z80PIO_INTCTRL_HILO ≠ 0 then "HI" else "LO"

/-- `printf`-style `%02X` of an 8-bit register value: two uppercase hex
digits. -/
def hexDigit (n : Nat) : Char :=
  if n < 10 then Char.ofNat (48 + n) else Char.ofNat (55 + n)

/-- Two-digit uppercase hex of a byte, as `ImGui::Text("%02X", v)` prints. -/
def fmt02X (v : Nat) : String :=
  String.mk [hexDigit (v / 16 % 16), hexDigit (v % 16)]

/-- One `for (int i = 0; i < 2; i++) { ImGui::Text(...); TableNextColumn(); }`
loop of `_ui_z80pio_ports`, rendering one cell per port. -/
def _ui_z80pio_port_cells (cell : z80pio_port_t → String) (pio : z80pio_t) :
    List RenderOp :=
  [RenderOp.text (cell (pio.port 0)), RenderOp.tableNextColumn,
   RenderOp.text (cell (pio.port 1)), RenderOp.tableNextColumn]

/-- `_ui_z80pio_ports` (lines 135-185): the three-column register table.
The chip state is only read; `tableVisible` is the environment's return value
for `ImGui::BeginTable` (contents and `EndTable` only when true). -/
def _ui_z80pio_ports (pio : z80pio_t) (tableVisible : Bool) : List RenderOp :=
  if tableVisible then
    [RenderOp.beginTable "##pio_columns" 3,
     RenderOp.tableSetupColumn "", RenderOp.tableSetupColumn "PA",
     RenderOp.tableSetupColumn "PB", RenderOp.tableHeadersRow,
     RenderOp.tableNextColumn,
     RenderOp.text "Mode", RenderOp.tableNextColumn] ++
    _ui_z80pio_port_cells (fun p => _ui_z80pio_mode_str p.mode) pio ++
    [RenderOp.text "Output", RenderOp.tableNextColumn] ++
    _ui_z80pio_port_cells (fun p => fmt02X p.output) pio ++
    [RenderOp.text "Input", RenderOp.tableNextColumn] ++
    _ui_z80pio_port_cells (fun p => fmt02X p.input) pio ++
    [RenderOp.text "IO Select", RenderOp.tableNextColumn] ++
    _ui_z80pio_port_cells (fun p => fmt02X p.io_select) pio ++
    [RenderOp.text "INT Ctrl", RenderOp.tableNextColumn] ++
    _ui_z80pio_port_cells (fun p => fmt02X p.int_control) pio ++
    [RenderOp.text "  ei/di", RenderOp.tableNextColumn] ++
    _ui_z80pio_port_cells (fun p => _ui_z80pio_eidi_str p.int_control) pio ++
    [RenderOp.text "  and/or", RenderOp.tableNextColumn] ++
    _ui_z80pio_port_cells (fun p => _ui_z80pio_andor_str p.int_control) pio ++
    [RenderOp.text "  hi/lo", RenderOp.tableNextColumn] ++
    _ui_z80pio_port_cells (fun p => _ui_z80pio_hilo_str p.int_control) pio ++
    [RenderOp.text "INT Vec", RenderOp.tableNextColumn] ++
    _ui_z80pio_port_cells (fun p => fmt02X p.int_vector) pio ++
    [RenderOp.text "INT Mask", RenderOp.tableNextColumn] ++
    _ui_z80pio_port_cells (fun p => fmt02X p.int_mask) pio ++
    [RenderOp.endTable]
  else []

/-- The GUI environment's responses during one draw: the return value of
`ImGui::Begin`, the value `Begin` leaves in the open flag it is handed a
pointer to (false when the user clicked the close box), and the return value
of `ImGui::BeginTable`. -/
structure GuiInput where
  beginResult : Bool
  openAfterBegin : Bool
  tableVisible : Bool

/-- `ui_z80pio_draw` (lines 187-205).  Asserts `win && win->valid &&
win->title && win->pio` (`none` = assertion failure); reconciles the open
flags; returns immediately when closed; otherwise issues the window render
calls.  The pointed-to chip state `pio` is threaded through and returned so
mutation would be visible. -/
def ui_z80pio_draw (win : ui_z80pio_t) (pio : z80pio_t) (gui : GuiInput) :
    Option (ui_z80pio_t × z80pio_t × List RenderOp) :=
  if win.valid ∧ win.title.isSome ∧ win.pio.isSome then
    let ol := ui_util_handle_window_open_dirty win.«open» win.last_open
    let win1 := { win with «open» := ol.1, last_open := ol.2 }
    if win1.«open» = false then
      some (win1, pio, [])
    else
      let ops0 := [RenderOp.setNextWindowPos win1.init_x win1.init_y,
                   RenderOp.setNextWindowSize win1.init_w win1.init_h,
                   RenderOp.begin (win1.title.getD "")]
      let win2 := { win1 with «open» := gui.openAfterBegin }
      if gui.beginResult then
        let cd := ui_chip_draw win2.chip pio.pins
        some ({ win2 with chip := cd.1 }, pio,
              ops0 ++ [RenderOp.beginChild "##pio_chip"] ++ cd.2 ++
              [RenderOp.endChild, RenderOp.sameLine,
               RenderOp.beginChild "##pio_vals"] ++
              _ui_z80pio_ports pio gui.tableVisible ++
              [RenderOp.endChild, RenderOp.«end»])
      else
        some (win2, pio, ops0 ++ [RenderOp.«end»])
  else none

/-- `ui_z80pio_save_settings` (lines 207-210): asserts only `win && settings`
(always satisfied by values), then records the open flag under the title. -/
def ui_z80pio_save_settings (win : ui_z80pio_t) (settings : ui_settings_t) :
    Option ui_settings_t :=
  some (ui_settings_add settings win.title win.«open»)

/-- `ui_z80pio_load_settings` (lines 212-215): asserts only `win && settings`
(always satisfied by values), then sets the open flag from the store. -/
def ui_z80pio_load_settings (win : ui_z80pio_t) (settings : ui_settings_t) :
    Option ui_z80pio_t :=
  some { win with «open» := ui_settings_isopen settings win.title }

/-- A concrete port state with all registers zero, for witnesses. -/
def testPort : z80pio_port_t :=
  { mode := 0, output := 0, input := 0, io_select := 0, int_control := 0,
    int_vector := 0, int_mask := 0 }

/-- A concrete chip state, for witnesses. -/
def testPio : z80pio_t := { port := fun _ => testPort, pins := 0 }

/-- A concrete initialized window, for witnesses. -/
def testWin : ui_z80pio_t :=
  { title := some "Z80 PIO", pio := some 0, init_x := 1, init_y := 2,
    init_w := 360, init_h := 364, «open» := true, last_open := true,
    valid := true, chip := { st := 0 } }

/-- `testWin` with the open flag cleared, for the closed-draw witness. -/
def testWinClosed : ui_z80pio_t := { testWin with «open» := false }

/-- `testWin` after `ui_z80pio_discard`: the `valid` flag is false. -/
def invalidWin : ui_z80pio_t := { testWin with valid := false }

/-- A concrete init description with every geometry component zero. -/
def descZero : ui_z80pio_desc_t :=
  { title := some "Z80 PIO", pio := some 0, x := 0, y := 0, w := 0, h := 0,
    «open» := true, chip_desc := { cfg := 0 } }

/-- A concrete init description with nonzero geometry in the float-exact
range. -/
def descSmall : ui_z80pio_desc_t :=
  { title := some "Z80 PIO", pio := some 0, x := -3, y := 7, w := 100,
    h := 200, «open» := false, chip_desc := { cfg := 0 } }

/-- A concrete init description whose width and height are 2^24 + 1, the
smallest positive `int` the C `(float)` cast does not store exactly. -/
def descBig : ui_z80pio_desc_t :=
  { title := some "Z80 PIO", pio := some 0, x := 0, y := 0, w := 16777217,
    h := 16777217, «open» := true, chip_desc := { cfg := 0 } }

/-- Rounding to a multiple of `u` is the identity on multiples of `u`. -/
theorem roundNearestEven_dvd_eq (m u : Nat) (hu : 0 < u) (h : u ∣ m) :
    roundNearestEven m u = m := by
  obtain ⟨k, rfl⟩ := h
  unfold roundNearestEven
  rw [Nat.mul_mod_right, Nat.mul_div_cancel_left k hu]
  simp [hu, Nat.mul_comm]

/-- The float spacing is never zero. -/
theorem f32ulp_pos (m : Nat) : 0 < f32ulp m := by
  unfold f32ulp
  repeat' split
  all_goals decide

/-- Up to magnitude 2^24 every integer is a multiple of the float spacing,
hence representable exactly. -/
theorem f32ulp_dvd_of_le (m : Nat) (h : m ≤ 16777216) : f32ulp m ∣ m := by
  rcases Nat.lt_or_ge m 16777216 with h1 | h1
  · simp [f32ulp, h1]
  · have h2 : m = 16777216 := Nat.le_antisymm h h1
    subst h2
    decide

/-- The C `(float)` cast is exact for `int` magnitudes up to 2^24. -/
theorem f32OfInt_eq_of_abs_le (v : Int) (h : v.natAbs ≤ 16777216) :
    f32OfInt v = v := by
  have hr : roundNearestEven v.natAbs (f32ulp v.natAbs) = v.natAbs :=
    roundNearestEven_dvd_eq _ _ (f32ulp_pos _) (f32ulp_dvd_of_le _ h)
  unfold f32OfInt
  rw [hr]
  split <;> omega

/-- C5: for every configuration with non-null title and non-null chip
reference, immediately after init the window's open flag equals the
configuration's initial open flag, and the last-open flag equals that same
value. -/
theorem ui_z80pio_init_open_flags (desc : ui_z80pio_desc_t)
    (h : desc.title.isSome ∧ desc.pio.isSome) :
    ∃ w, ui_z80pio_init desc = some w ∧
      w.«open» = desc.«open» ∧ w.last_open = desc.«open» := by
  unfold ui_z80pio_init
  rw [if_pos h]
  exact ⟨_, rfl, rfl, rfl⟩

/-- C5 witness: the init-open-flags law at a concrete configuration. -/
theorem ui_z80pio_init_open_flags_witness :
    ∃ w, ui_z80pio_init descZero = some w ∧
      w.«open» = descZero.«open» ∧ w.last_open = descZero.«open» :=
  ui_z80pio_init_open_flags descZero ⟨rfl, rfl⟩

/-- C6 counterexample: the nonzero requested width 16777217 (2^24 + 1) is
not stored unchanged — the `(float)` cast at line 113 stores 16777216, so
"any nonzero requested width or height is stored unchanged as its numeric
value" fails at this input. -/
theorem ui_z80pio_init_float_rounding_counterexample :
    descBig.w = 16777217 ∧ descBig.w ≠ 0 ∧
    (ui_z80pio_init descBig).map ui_z80pio_t.init_w = some 16777216 ∧
    (ui_z80pio_init descBig).map ui_z80pio_t.init_h = some 16777216 := by
  refine ⟨rfl, by decide, ?_, ?_⟩ <;> decide

/-- C6 amended: init with requested width 0 stores initial width 360 and
with requested height 0 stores initial height 364; a nonzero requested width
or height of magnitude at most 2^24 (the float-exact range) is stored
unchanged as its numeric value — beyond that the float cast stores it
rounded to float precision. -/
theorem ui_z80pio_init_default_size (desc : ui_z80pio_desc_t)
    (h : desc.title.isSome ∧ desc.pio.isSome) :
    ∃ w, ui_z80pio_init desc = some w ∧
      (desc.w = 0 → w.init_w = 360) ∧
      (desc.w ≠ 0 → desc.w.natAbs ≤ 16777216 → w.init_w = desc.w) ∧
      (desc.h = 0 → w.init_h = 364) ∧
      (desc.h ≠ 0 → desc.h.natAbs ≤ 16777216 → w.init_h = desc.h) := by
  unfold ui_z80pio_init
  rw [if_pos h]
  refine ⟨_, rfl, ?_, ?_, ?_, ?_⟩
  · intro h0
    show f32OfInt (if desc.w = 0 then 360 else desc.w) = 360
    rw [if_pos h0]
    decide
  · intro h0 h1
    show f32OfInt (if desc.w = 0 then 360 else desc.w) = desc.w
    rw [if_neg h0]
    exact f32OfInt_eq_of_abs_le desc.w h1
  · intro h0
    show f32OfInt (if desc.h = 0 then 364 else desc.h) = 364
    rw [if_pos h0]
    decide
  · intro h0 h1
    show f32OfInt (if desc.h = 0 then 364 else desc.h) = desc.h
    rw [if_neg h0]
    exact f32OfInt_eq_of_abs_le desc.h h1

/-- C6 amended witness: the default-size law at a concrete configuration
with nonzero width and height in the float-exact range. -/
theorem ui_z80pio_init_default_size_witness :
    ∃ w, ui_z80pio_init descSmall = some w ∧
      (descSmall.w = 0 → w.init_w = 360) ∧
      (descSmall.w ≠ 0 → descSmall.w.natAbs ≤ 16777216 → w.init_w = descSmall.w) ∧
      (descSmall.h = 0 → w.init_h = 364) ∧
      (descSmall.h ≠ 0 → descSmall.h.natAbs ≤ 16777216 → w.init_h = descSmall.h) :=
  ui_z80pio_init_default_size descSmall ⟨rfl, rfl⟩

/-- C7 counterexample: init applies no nonzero default to position — with
requested x = 0 and y = 0 the stored initial position is exactly 0, so not
every geometry component of value 0 is replaced by a nonzero default. -/
theorem ui_z80pio_init_xy_no_default_counterexample :
    descZero.x = 0 ∧ descZero.y = 0 ∧
    (ui_z80pio_init descZero).map ui_z80pio_t.init_x = some 0 ∧
    (ui_z80pio_init descZero).map ui_z80pio_t.init_y = some 0 :=
  ⟨rfl, rfl, rfl, rfl⟩

/-- C7 amended: only the width and height have nonzero defaults (360 and
364) applied in place of a requested 0; the x and y components get no
default — a requested 0 is stored as 0 — and every geometry component is
stored at float precision, exactly when its magnitude is at most 2^24. -/
theorem ui_z80pio_init_geometry_defaults (desc : ui_z80pio_desc_t)
    (h : desc.title.isSome ∧ desc.pio.isSome) :
    ∃ w, ui_z80pio_init desc = some w ∧
      (desc.x = 0 → w.init_x = 0) ∧ (desc.y = 0 → w.init_y = 0) ∧
      (desc.x.natAbs ≤ 16777216 → w.init_x = desc.x) ∧
      (desc.y.natAbs ≤ 16777216 → w.init_y = desc.y) ∧
      (desc.w = 0 → w.init_w = 360) ∧
      (desc.w ≠ 0 → desc.w.natAbs ≤ 16777216 → w.init_w = desc.w) ∧
      (desc.h = 0 → w.init_h = 364) ∧
      (desc.h ≠ 0 → desc.h.natAbs ≤ 16777216 → w.init_h = desc.h) := by
  unfold ui_z80pio_init
  rw [if_pos h]
  refine ⟨_, rfl, ?_, ?_, ?_, ?_, ?_, ?_, ?_, ?_⟩
  · intro h0
    show f32OfInt desc.x = 0
    rw [h0]
    decide
  · intro h0
    show f32OfInt desc.y = 0
    rw [h0]
    decide
  · intro h1
    exact f32OfInt_eq_of_abs_le desc.x h1
  · intro h1
    exact f32OfInt_eq_of_abs_le desc.y h1
  · intro h0
    show f32OfInt (if desc.w = 0 then 360 else desc.w) = 360
    rw [if_pos h0]
    decide
  · intro h0 h1
    show f32OfInt (if desc.w = 0 then 360 else desc.w) = desc.w
    rw [if_neg h0]
    exact f32OfInt_eq_of_abs_le desc.w h1
  · intro h0
    show f32OfInt (if desc.h = 0 then 364 else desc.h) = 364
    rw [if_pos h0]
    decide
  · intro h0 h1
    show f32OfInt (if desc.h = 0 then 364 else desc.h) = desc.h
    rw [if_neg h0]
    exact f32OfInt_eq_of_abs_le desc.h h1

/-- C7 amended witness: the geometry law at a concrete all-zero geometry. -/
theorem ui_z80pio_init_geometry_defaults_witness :
    ∃ w, ui_z80pio_init descZero = some w ∧
      (descZero.x = 0 → w.init_x = 0) ∧ (descZero.y = 0 → w.init_y = 0) ∧
      (descZero.x.natAbs ≤ 16777216 → w.init_x = descZero.x) ∧
      (descZero.y.natAbs ≤ 16777216 → w.init_y = descZero.y) ∧
      (descZero.w = 0 → w.init_w = 360) ∧
      (descZero.w ≠ 0 → descZero.w.natAbs ≤ 16777216 → w.init_w = descZero.w) ∧
      (descZero.h = 0 → w.init_h = 364) ∧
      (descZero.h ≠ 0 → descZero.h.natAbs ≤ 16777216 → w.init_h = descZero.h) :=
  ui_z80pio_init_geometry_defaults descZero ⟨rfl, rfl⟩

/-- C3: the mode-name formatting maps 0 to "OUT", 1 to "INP", 2 to "BDIR",
3 to "BITC", and every other 8-bit value to "INVALID". -/
theorem ui_z80pio_mode_str_spec :
    _ui_z80pio_mode_str 0 = "OUT" ∧ _ui_z80pio_mode_str 1 = "INP" ∧
    _ui_z80pio_mode_str 2 = "BDIR" ∧ _ui_z80pio_mode_str 3 = "BITC" ∧
    ∀ m : Nat, 3 < m → m < 256 → _ui_z80pio_mode_str m = "INVALID" := by
  refine ⟨rfl, rfl, rfl, rfl, ?_⟩
  intro m h1 _
  match m, h1 with
  | (n + 4), _ => rfl

/-- C3 witness: the mode-string table at the concrete out-of-range value 200. -/
theorem ui_z80pio_mode_str_spec_witness :
    3 < 200 ∧ 200 < 256 ∧ _ui_z80pio_mode_str 200 = "INVALID" :=
  ⟨by decide, by decide, ui_z80pio_mode_str_spec.2.2.2.2 200 (by decide) (by decide)⟩

set_option maxRecDepth 8192 in
/-- C8: each flag-row cell is a pure function of exactly one bit of the
port's 8-bit interrupt-control register: "EI"/"DI" from the
enable-interrupt bit, "AND"/"OR" from the and/or bit, "HI"/"LO" from the
hi/lo bit, whatever the remaining bits hold. -/
theorem ui_z80pio_flag_rows_single_bit :
    ∀ ic : Nat, ic < 256 →
      (_ui_z80pio_eidi_str ic = if ic.testBit 7 then "EI" else "DI") ∧
      (_ui_z80pio_andor_str ic = if ic.testBit 6 then "AND" else "OR") ∧
      (_ui_z80pio_hilo_str ic = if ic.testBit 5 then "HI" else "LO") := by
  decide

/-- C8 witness: the flag-row law at the concrete register value 160 (bit 7
and bit 5 set, bit 6 clear). -/
theorem ui_z80pio_flag_rows_single_bit_witness :
    (_ui_z80pio_eidi_str 160 = if (160 : Nat).testBit 7 then "EI" else "DI") ∧
    (_ui_z80pio_andor_str 160 = if (160 : Nat).testBit 6 then "AND" else "OR") ∧
    (_ui_z80pio_hilo_str 160 = if (160 : Nat).testBit 5 then "HI" else "LO") :=
  ui_z80pio_flag_rows_single_bit 160 (by decide)

/-- C1 counterexample: a window whose `valid` flag is false on which
`ui_z80pio_save_settings` and `ui_z80pio_load_settings` both run to a result
instead of failing their assertion — they assert only non-null pointers, so
`valid` is not a precondition they check. -/
theorem ui_z80pio_valid_assert_counterexample :
    invalidWin.valid = false ∧
    (ui_z80pio_save_settings invalidWin []).isSome = true ∧
    (ui_z80pio_load_settings invalidWin []).isSome = true :=
  ⟨rfl, rfl, rfl⟩

/-- C1 amended: `valid` is an assertion-checked precondition of draw and
discard — calling either with `valid` false is an assertion failure — while
saveSettings and loadSettings assert only non-null window and store pointers
and execute normally even when `valid` is false. -/
theorem ui_z80pio_valid_assert_ops (win : ui_z80pio_t) (pio : z80pio_t)
    (gui : GuiInput) (s : ui_settings_t) (h : win.valid = false) :
    ui_z80pio_draw win pio gui = none ∧
    ui_z80pio_discard win = none ∧
    (ui_z80pio_save_settings win s).isSome = true ∧
    (ui_z80pio_load_settings win s).isSome = true := by
  refine ⟨?_, ?_, rfl, rfl⟩
  · simp [ui_z80pio_draw, h]
  · simp [ui_z80pio_discard, h]

/-- C1 amended witness: the per-operation `valid` assertion behavior at a
concrete discarded window. -/
theorem ui_z80pio_valid_assert_ops_witness :
    ui_z80pio_draw invalidWin testPio ⟨true, true, true⟩ = none ∧
    ui_z80pio_discard invalidWin = none ∧
    (ui_z80pio_save_settings invalidWin []).isSome = true ∧
    (ui_z80pio_load_settings invalidWin []).isSome = true :=
  ui_z80pio_valid_assert_ops invalidWin testPio ⟨true, true, true⟩ [] rfl

/-- C2: for every valid window (valid flag set, non-null title and chip
reference), every chip state and every GUI response, draw succeeds and
returns the chip state it was given unchanged — the draw path, including the
port-table helper, only reads the chip emulation instance. -/
theorem ui_z80pio_draw_preserves_pio (win : ui_z80pio_t) (pio : z80pio_t)
    (gui : GuiInput) (h : win.valid ∧ win.title.isSome ∧ win.pio.isSome) :
    ∃ w ops, ui_z80pio_draw win pio gui = some (w, pio, ops) := by
  unfold ui_z80pio_draw
  rw [if_pos h]
  dsimp only
  split
  · exact ⟨_, _, rfl⟩
  · split
    · exact ⟨_, _, rfl⟩
    · exact ⟨_, _, rfl⟩

/-- C2 witness: draw at a concrete window and chip state returns that chip
state unchanged. -/
theorem ui_z80pio_draw_preserves_pio_witness :
    ∃ w ops, ui_z80pio_draw testWin testPio ⟨true, true, true⟩ =
      some (w, testPio, ops) :=
  ui_z80pio_draw_preserves_pio testWin testPio ⟨true, true, true⟩ ⟨rfl, rfl, rfl⟩

/-- C4: for every valid window whose open flag is false (the reconciliation
step does not change the open flag, only the last-open flag), draw returns
immediately: it issues no render calls, leaves the chip state untouched, and
changes no stored field except setting last-open to the open flag. -/
theorem ui_z80pio_draw_closed (win : ui_z80pio_t) (pio : z80pio_t)
    (gui : GuiInput) (hv : win.valid ∧ win.title.isSome ∧ win.pio.isSome)
    (hc : win.«open» = false) :
    ui_z80pio_draw win pio gui =
      some ({ win with last_open := win.«open» }, pio, []) := by
  unfold ui_z80pio_draw ui_util_handle_window_open_dirty
  rw [if_pos hv]
  simp [hc]

/-- C4 witness: the closed-draw law at a concrete closed window. -/
theorem ui_z80pio_draw_closed_witness :
    ui_z80pio_draw testWinClosed testPio ⟨true, true, true⟩ =
      some ({ testWinClosed with last_open := testWinClosed.«open» },
            testPio, []) :=
  ui_z80pio_draw_closed testWinClosed testPio ⟨true, true, true⟩
    ⟨rfl, rfl, rfl⟩ rfl

/-- C9: saving a window's open state and then loading into any window with
the same title reproduces the saved open/closed state. -/
theorem ui_z80pio_settings_roundtrip (w w2 : ui_z80pio_t)
    (s : ui_settings_t) (h : w2.title = w.title) :
    ∃ s2 w2f, ui_z80pio_save_settings w s = some s2 ∧
      ui_z80pio_load_settings w2 s2 = some w2f ∧
      w2f.«open» = w.«open» := by
  refine ⟨_, _, rfl, rfl, ?_⟩
  show ui_settings_isopen (ui_settings_add s w.title w.«open») w2.title
      = w.«open»
  unfold ui_settings_isopen ui_settings_add
  rw [h]
  simp [List.lookup]

/-- C9 witness: the round-trip law at a concrete window pair and an empty
store. -/
theorem ui_z80pio_settings_roundtrip_witness :
    ∃ s2 w2f, ui_z80pio_save_settings testWin [] = some s2 ∧
      ui_z80pio_load_settings testWinClosed s2 = some w2f ∧
      w2f.«open» = testWin.«open» :=
  ui_z80pio_settings_roundtrip testWin testWinClosed [] rfl

/-- C10: loadSettings sets only the open flag (from the store's value for
the window's title); title, chip reference, geometry, valid flag, pin
widget, and in particular the last-open flag are all left unchanged, so the
open and last-open flags may differ until a later draw reconciles them. -/
theorem ui_z80pio_load_settings_only_open (win : ui_z80pio_t)
    (s : ui_settings_t) :
    ∃ w2, ui_z80pio_load_settings win s = some w2 ∧
      w2.«open» = ui_settings_isopen s win.title ∧
      w2.title = win.title ∧ w2.pio = win.pio ∧
      w2.init_x = win.init_x ∧ w2.init_y = win.init_y ∧
      w2.init_w = win.init_w ∧ w2.init_h = win.init_h ∧
      w2.valid = win.valid ∧ w2.chip = win.chip ∧
      w2.last_open = win.last_open :=
  ⟨_, rfl, rfl, rfl, rfl, rfl, rfl, rfl, rfl, rfl, rfl, rfl⟩
